import Mathlib

/-
  Verification of the animation core of the `egui_animate` crate
  (`src/anim.rs`): the `Animation` / `AnimationSegment` data model and the
  scoped application of a segment's mutate function.

  Modelling choices:
  * `f32` durations and progress normals are modelled as `ℚ` (exact
    arithmetic; halving a rational is exact, matching the exactness of
    halving an `f32`).
  * `egui::Ui` is modelled as a rendering-scope handle carrying its current
    `LayerId` and a trace of observable effects recorded during the pass.
    A Rust `fn(&mut Ui, f32)` mutate function becomes a state transformer
    `Ui → ℚ → Ui`; a content closure `FnOnce(&mut Ui) -> R` becomes
    `Ui → Ui × R`.
  * `egui::Id` is an opaque identity token; `egui::LayerId` pairs an order
    with such a token, as in egui.
-/

namespace EguiAnimate

/-- Rendering order of a layer, after egui's `Order` enum. -/
inductive Order where
  | Background
  | Middle
  | Foreground
  | Tooltip
  | Debug
deriving DecidableEq

/-- An opaque identity token, after `egui::Id`. -/
structure Id where
  value : ℕ
deriving DecidableEq

/-- A layer identity: an order paired with an identity token, after
`egui::LayerId`. -/
structure LayerId where
  order : Order
  id : Id
deriving DecidableEq

/-- Construct a layer id, after `egui::LayerId::new(order, id)`. -/
def LayerId.new (order : Order) (id : Id) : LayerId :=
  ⟨order, id⟩

/-- Observable events a closure can record against a `Ui` during one pass;
used to observe which functions the scoped application invokes, with which
normal, and in which order. -/
inductive UiEvent where
  | animCall (normal : ℚ)
  | contentCall (tag : ℕ)
deriving DecidableEq

/-- The mutable rendering-scope handle, after `egui::Ui`: its current layer
and the trace of effects recorded so far in the current pass. -/
structure Ui where
  layer_id : LayerId
  trace : List UiEvent

/-- The result of running a child scope, after `egui::InnerResponse`; the
source only uses the `inner` value. -/
structure InnerResponse (R : Type) where
  inner : R

/-- Builder for a child scope, after `egui::UiBuilder`. -/
structure UiBuilder where
  salt : Option String
  layer : Option LayerId

/-- An empty builder, after `egui::UiBuilder::new()`. -/
def UiBuilder.new : UiBuilder :=
  ⟨none, none⟩

/-- Set the id salt of the builder, after `UiBuilder::id_salt`. -/
def UiBuilder.id_salt (b : UiBuilder) (s : String) : UiBuilder :=
  ⟨some s, b.layer⟩

/-- Set the layer of the builder, after `UiBuilder::layer_id`. -/
def UiBuilder.layer_id (b : UiBuilder) (l : LayerId) : UiBuilder :=
  ⟨b.salt, some l⟩

/-- Run a body in a child scope built from the builder, after
`Ui::scope_builder`: the child starts from the parent's inherited state on
the builder's layer, the body's recorded effects flow back into the pass,
and the parent's own settings are untouched once the scope is exited. -/
def Ui.scope_builder {R : Type} (ui : Ui) (b : UiBuilder) (body : Ui → Ui × R) :
    Ui × InnerResponse R :=
  let child : Ui := ⟨b.layer.getD ui.layer_id, ui.trace⟩
  let res := body child
  (⟨ui.layer_id, res.1.trace⟩, ⟨res.2⟩)

/-- A single segment of the animation, after `AnimationSegment` in
`src/anim.rs`: a duration in seconds and a `Ui`-mutating function that
receives the progress normal. -/
structure AnimationSegment where
  duration : ℚ
  anim_fn : Ui → ℚ → Ui

namespace AnimationSegment

/-- An empty placeholder animation segment, after `AnimationSegment::EMPTY`:
zero duration and the no-op mutate function `|_, _| {}`. -/
def EMPTY : AnimationSegment :=
  ⟨0, fun ui _ => ui⟩

/-- The `Default` impl for `AnimationSegment` returns `EMPTY`. -/
def default : AnimationSegment :=
  EMPTY

/-- Create a new segment from the given duration and animation function,
after `AnimationSegment::new`. -/
def new (duration : ℚ) (animation : Ui → ℚ → Ui) : AnimationSegment :=
  ⟨duration, animation⟩

/-- After `AnimationSegment::duration_mut(&mut self) -> f32`: the borrowed
segment is threaded through explicitly, so the result is the returned value
paired with the segment as it stands when the borrow ends. -/
def duration_mut (s : AnimationSegment) : ℚ × AnimationSegment :=
  (s.duration, s)

/-- The animation layer id, after `AnimationSegment::animation_layer`:
`LayerId::new(ui.layer_id().order, id)`. -/
def animation_layer (ui : Ui) (id : Id) : LayerId :=
  LayerId.new ui.layer_id.order id

/-- The id salt string used by `scope_animation`. -/
def animationScopeSalt : String :=
  "animation_scope"

/-- Create a child `Ui` for animation, after
`AnimationSegment::scope_animation`: derive the animation layer, open a
scope on it, and inside it run `anim_fn` then `add_contents`, returning the
inner result. -/
def scope_animation {R : Type} (ui : Ui) (id : Id)
    (anim_fn : Ui → Ui) (add_contents : Ui → Ui × R) : Ui × R :=
  let layer_id := animation_layer ui id
  let res := ui.scope_builder
    ((UiBuilder.new.id_salt animationScopeSalt).layer_id layer_id)
    (fun u =>
      let u2 := anim_fn u
      add_contents u2)
  (res.1, res.2.inner)

/-- Apply the animation function, passing in the given normal, after
`AnimationSegment::animate`. -/
def animate {R : Type} (s : AnimationSegment) (ui : Ui) (id : Id)
    (normal : ℚ) (add_contents : Ui → Ui × R) : Ui × R :=
  scope_animation ui id (fun u => s.anim_fn u normal) add_contents

end AnimationSegment

/-- An animation defined by out-in segments, after `Animation` in
`src/anim.rs`. -/
structure Animation where
  out_seg : AnimationSegment
  in_seg : AnimationSegment

namespace Animation

/-- Create an `Animation` from the given segments, after
`Animation::from_segments`. -/
def from_segments (out_seg in_seg : AnimationSegment) : Animation :=
  ⟨out_seg, in_seg⟩

/-- An empty placeholder animation, after `Animation::EMPTY`. -/
def EMPTY : Animation :=
  from_segments AnimationSegment.EMPTY AnimationSegment.EMPTY

/-- The derived `Default` impl for `Animation`: each field takes its own
default. -/
def default : Animation :=
  ⟨AnimationSegment.default, AnimationSegment.default⟩

/-- Create a new `Animation` with the given total duration split over the
segments, after `Animation::new`. -/
def new (duration : ℚ) (out_fn in_fn : Ui → ℚ → Ui) : Animation :=
  let segment_duration := duration / 2
  let out_seg := AnimationSegment.new segment_duration out_fn
  let in_seg := AnimationSegment.new segment_duration in_fn
  ⟨out_seg, in_seg⟩

/-- Create a new `Animation` with only the out segment, after
`Animation::new_out`. -/
def new_out (duration : ℚ) (out_fn : Ui → ℚ → Ui) : Animation :=
  ⟨AnimationSegment.new duration out_fn, AnimationSegment.EMPTY⟩

/-- Create a new `Animation` with only the in segment, after
`Animation::new_in`. -/
def new_in (duration : ℚ) (out_fn : Ui → ℚ → Ui) : Animation :=
  ⟨AnimationSegment.EMPTY, AnimationSegment.new duration out_fn⟩

/-- The total duration of the animation, after `Animation::duration`. -/
def duration (a : Animation) : ℚ :=
  a.out_seg.duration + a.in_seg.duration

end Animation

/-- Modelled from the spec: the repository's top-level transition driver
(the `animate` entry point owning per-identity timing state) is not among
the provided sources, only its callers are; its phase selection is modelled
from section 4.4 of the spec. The driver phase after a value change, as a
function of elapsed time: Transitioning-Out while `elapsed` lies in
`[0, out.duration)`, Transitioning-In while `elapsed` lies in
`[out.duration, total_duration)`, Complete once `elapsed` reaches the total
duration. A zero-duration phase has an empty interval and is skipped in the
same frame. -/
inductive DriverPhase where
  | Idle
  | TransitioningOut
  | TransitioningIn
  | Complete
deriving DecidableEq

/-- Modelled from the spec: the driver's phase for a transition at the given
elapsed time since the value change (section 4.4). -/
def driverPhase (a : Animation) (elapsed : ℚ) : DriverPhase :=
  if elapsed < a.out_seg.duration then DriverPhase.TransitioningOut
  else if elapsed < a.duration then DriverPhase.TransitioningIn
  else DriverPhase.Complete

/-- Modelled from the spec: a segment's local progress at the given elapsed
offset; a zero-duration segment's local progress is treated as already `1`
(section 4.4: no division by zero). -/
def localProgress (dur elapsed : ℚ) : ℚ :=
  if dur = 0 then 1 else elapsed / dur

/-- A mutate function that records the normal it receives on the trace;
used to observe what the scoped application passes to a segment's
`anim_fn`. -/
def recordAnim : Ui → ℚ → Ui :=
  fun ui n => ⟨ui.layer_id, ui.trace ++ [UiEvent.animCall n]⟩

/-- A content closure that records its invocation on the trace and returns
its tag. -/
def recordContent (tag : ℕ) : Ui → Ui × ℕ :=
  fun ui => (⟨ui.layer_id, ui.trace ++ [UiEvent.contentCall tag]⟩, tag)

/-- The child scope `Ui` that `scope_builder` opens for an animation: the
animation layer for the given identity, with the parent's inherited pass
state. -/
def childUi (ui : Ui) (id : Id) : Ui :=
  ⟨AnimationSegment.animation_layer ui id, ui.trace⟩

/-- A concrete parent `Ui` used by witnesses and counterexamples. -/
def ui0 : Ui :=
  ⟨⟨Order.Middle, ⟨0⟩⟩, []⟩

/-- A concrete identity used by witnesses and counterexamples. -/
def id0 : Id :=
  ⟨1⟩

/-- A concrete animation with a zero-duration out segment and a one-second
in segment, used by the driver witness. -/
def animZeroOut : Animation :=
  Animation.from_segments (AnimationSegment.new 0 recordAnim)
    (AnimationSegment.new 1 recordAnim)

/-- Claim C1: for every segment, identity, normal and content closure,
`AnimationSegment::animate` applies the segment's stored `anim_fn` exactly
once to the child scope with the given normal, then applies the content
closure to the resulting scope (so never before the mutate and never with
the mutate afterwards), and returns the content closure's result to the
caller unchanged; instantiated with recording closures, the trace shows the
anim call with the given normal strictly before the content call. -/
theorem animate_mutate_then_content {R : Type} (s : AnimationSegment)
    (ui : Ui) (id : Id) (normal : ℚ) (f : Ui → Ui × R) (d : ℚ) (t : ℕ) :
    s.animate ui id normal f
      = (⟨ui.layer_id, (f (s.anim_fn (childUi ui id) normal)).1.trace⟩,
         (f (s.anim_fn (childUi ui id) normal)).2)
    ∧ ((AnimationSegment.new d recordAnim).animate ui id normal
        (recordContent t)).1.trace
      = ui.trace ++ [UiEvent.animCall normal, UiEvent.contentCall t] := by
  constructor
  · rfl
  · simp [AnimationSegment.animate, AnimationSegment.scope_animation,
      Ui.scope_builder, AnimationSegment.new, recordAnim, recordContent,
      UiBuilder.new, UiBuilder.id_salt, UiBuilder.layer_id]

/-- Claim C2: `Animation::new(d, f, g)` produces an out segment and an in
segment each of duration `d / 2`, with `f` on the out segment and `g` on
the in segment, and the resulting animation's total duration is exactly
`d`. -/
theorem animation_new_splits_evenly (d : ℚ) (h : 0 ≤ d)
    (f g : Ui → ℚ → Ui) :
    (Animation.new d f g).out_seg.duration = d / 2
    ∧ (Animation.new d f g).in_seg.duration = d / 2
    ∧ (Animation.new d f g).out_seg.anim_fn = f
    ∧ (Animation.new d f g).in_seg.anim_fn = g
    ∧ (Animation.new d f g).duration = d := by
  refine ⟨rfl, rfl, rfl, rfl, ?_⟩
  show d / 2 + d / 2 = d
  ring

/-- Witness for C2 at the concrete duration `3`. -/
theorem animation_new_splits_evenly_witness :
    (Animation.new 3 recordAnim recordAnim).duration = 3 :=
  (animation_new_splits_evenly 3 (by norm_num) recordAnim recordAnim).2.2.2.2

/-- Claim C3: for every animation, however constructed, `duration()` is the
sum of the out segment's duration and the in segment's duration; in
particular this holds for `from_segments` with arbitrary segments. -/
theorem animation_duration_is_sum (a : Animation)
    (s1 s2 : AnimationSegment) :
    a.duration = a.out_seg.duration + a.in_seg.duration
    ∧ (Animation.from_segments s1 s2).duration = s1.duration + s2.duration :=
  ⟨rfl, rfl⟩

/-- Claim C4 counterexample: the normal actually handed to a segment's
`anim_fn` by `animate` is not clamped to `[0, 1]`: with input normal `2`
the recording mutate function receives exactly `2`, which exceeds `1`. -/
theorem animate_normal_not_clamped_counterexample :
    ((AnimationSegment.new 1 recordAnim).animate ui0 id0 2
        (recordContent 0)).1.trace
      = [UiEvent.animCall 2, UiEvent.contentCall 0]
    ∧ ¬ ((2 : ℚ) ≤ 1) := by
  constructor
  · rfl
  · norm_num

/-- Claim C4 as amended: for every input normal (including values below `0`
and above `1`), `animate` passes the normal to the segment's mutate
function unchanged; no clamping happens before the mutate function is
invoked. -/
theorem animate_passes_normal_unchanged (ui : Ui) (id : Id)
    (normal d : ℚ) (t : ℕ) :
    ((AnimationSegment.new d recordAnim).animate ui id normal
        (recordContent t)).1.trace
      = ui.trace ++ [UiEvent.animCall normal, UiEvent.contentCall t] := by
  simp [AnimationSegment.animate, AnimationSegment.scope_animation,
    Ui.scope_builder, AnimationSegment.new, recordAnim, recordContent,
    UiBuilder.new, UiBuilder.id_salt, UiBuilder.layer_id]

/-- Claim C5 counterexample: `AnimationSegment::new(-1, f)` stores the
duration `-1` verbatim, so the constructed segment's duration is negative;
no clamping to zero happens at construction time. -/
theorem segment_new_negative_counterexample :
    (AnimationSegment.new (-1) recordAnim).duration = -1
    ∧ ¬ (0 ≤ (AnimationSegment.new (-1) recordAnim).duration) := by
  constructor
  · rfl
  · show ¬ (0 ≤ (-1 : ℚ))
    norm_num

/-- Claim C5 as amended: `AnimationSegment::new(d, f)` stores the duration
verbatim, so for a negative `d` the constructed segment's duration is
negative; negative durations are not clamped at construction time. -/
theorem segment_new_keeps_negative (d : ℚ) (f : Ui → ℚ → Ui)
    (h : d < 0) :
    (AnimationSegment.new d f).duration < 0 := by
  simpa [AnimationSegment.new] using h

/-- Witness for the amended C5 at the concrete duration `-1`. -/
theorem segment_new_keeps_negative_witness :
    (AnimationSegment.new (-1) recordAnim).duration < 0 :=
  segment_new_keeps_negative (-1) recordAnim (by norm_num)

/-- Claim C6: `AnimationSegment::new(d, f)` stores both arguments verbatim:
the constructed segment's duration is exactly `d` and its animation
function is exactly `f`; construction is a total function of its arguments
with no other effect. -/
theorem segment_new_stores_verbatim (d : ℚ) (f : Ui → ℚ → Ui) :
    (AnimationSegment.new d f).duration = d
    ∧ (AnimationSegment.new d f).anim_fn = f :=
  ⟨rfl, rfl⟩

/-- Claim C7: `Animation::EMPTY` consists of two segments each of duration
`0` whose mutate functions leave the `Ui` unchanged for every normal, its
total duration is `0`, and the `Default` values of both `Animation` and
`AnimationSegment` equal this sentinel. -/
theorem empty_animation_is_noop_sentinel :
    Animation.EMPTY.out_seg.duration = 0
    ∧ Animation.EMPTY.in_seg.duration = 0
    ∧ (∀ (ui : Ui) (n : ℚ), Animation.EMPTY.out_seg.anim_fn ui n = ui)
    ∧ (∀ (ui : Ui) (n : ℚ), Animation.EMPTY.in_seg.anim_fn ui n = ui)
    ∧ Animation.EMPTY.duration = 0
    ∧ Animation.default = Animation.EMPTY
    ∧ AnimationSegment.default = AnimationSegment.EMPTY := by
  refine ⟨rfl, rfl, fun _ _ => rfl, fun _ _ => rfl, ?_, rfl, rfl⟩
  show (0 : ℚ) + 0 = 0
  norm_num

/-- Claim C8: the child-layer identity computed by `animation_layer` is a
deterministic function of the parent's layer order and the given identity
(two parents with equal layer order yield the same layer id for the same
identity), and for a fixed parent it is injective in the identity. -/
theorem animation_layer_deterministic_injective (ui1 ui2 ui : Ui)
    (id id1 id2 : Id)
    (horder : ui1.layer_id.order = ui2.layer_id.order)
    (heq : AnimationSegment.animation_layer ui id1
      = AnimationSegment.animation_layer ui id2) :
    AnimationSegment.animation_layer ui1 id
      = AnimationSegment.animation_layer ui2 id
    ∧ id1 = id2 := by
  constructor
  · simp only [AnimationSegment.animation_layer, LayerId.new, horder]
  · have h2 := heq
    simp only [AnimationSegment.animation_layer, LayerId.new,
      LayerId.mk.injEq] at h2
    exact h2.2

/-- Witness for C8 at a concrete parent and identity. -/
theorem animation_layer_deterministic_injective_witness :
    AnimationSegment.animation_layer ui0 id0
      = AnimationSegment.animation_layer ui0 id0
    ∧ id0 = id0 :=
  animation_layer_deterministic_injective ui0 ui0 ui0 id0 id0 id0 rfl rfl

/-- Claim C9: in the spec-modelled transition driver, a transition whose
out segment has duration `0` skips the Transitioning-Out phase: on the very
first frame after a value change (elapsed `0`) the phase is already
Transitioning-In, or Complete when the in segment also has duration `0`;
the zero-duration out segment's local progress is treated as `1`, with no
division by zero. -/
theorem driver_skips_zero_duration_out (a : Animation)
    (hout : a.out_seg.duration = 0) (hin : 0 ≤ a.in_seg.duration) :
    driverPhase a 0 ≠ DriverPhase.TransitioningOut
    ∧ (0 < a.in_seg.duration →
        driverPhase a 0 = DriverPhase.TransitioningIn)
    ∧ (a.in_seg.duration = 0 → driverPhase a 0 = DriverPhase.Complete)
    ∧ localProgress a.out_seg.duration 0 = 1 := by
  unfold driverPhase localProgress Animation.duration
  rw [hout]
  refine ⟨?_, ?_, ?_, ?_⟩
  · by_cases hpos : 0 < a.in_seg.duration
    · simp [hpos]
    · simp [hpos]
  · intro hpos
    simp [hpos]
  · intro hz
    simp [hz]
  · simp

/-- Witness for C9 at a concrete animation with a zero-duration out segment
and a one-second in segment. -/
theorem driver_skips_zero_duration_out_witness :
    driverPhase animZeroOut 0 ≠ DriverPhase.TransitioningOut
    ∧ (0 < animZeroOut.in_seg.duration →
        driverPhase animZeroOut 0 = DriverPhase.TransitioningIn)
    ∧ (animZeroOut.in_seg.duration = 0 →
        driverPhase animZeroOut 0 = DriverPhase.Complete)
    ∧ localProgress animZeroOut.out_seg.duration 0 = 1 :=
  driver_skips_zero_duration_out animZeroOut rfl
    (by norm_num [animZeroOut, Animation.from_segments, AnimationSegment.new])

/-- Claim C10: `AnimationSegment::duration_mut` returns the stored duration
by value, equal to what `duration()` returns, and mutates nothing: the
segment is unchanged when the borrow ends. -/
theorem duration_mut_returns_value_unchanged (s : AnimationSegment) :
    s.duration_mut.1 = s.duration ∧ s.duration_mut.2 = s :=
  ⟨rfl, rfl⟩

end EguiAnimate
